import Mathlib

/-!
Shallow embedding of `src/watchful.ts` (the `Watchful` construct of
cdk-watchful) and verification of its specification.

The constructor is modelled as a function from the props object to the
list of construct-tree side effects it performs (topic creation, topic
subscriptions, dashboard creation, deployment outputs), paired with either
the resulting instance state or the thrown error message.  JavaScript
truthiness of optional strings (`undefined` and `""` are falsy) is
modelled explicitly by `strTruthy`.
-/

namespace CdkWatchful

/-- An externally supplied SNS topic (`sns.ITopic`), identified abstractly. -/
abbrev TopicId := Nat

/-- An externally supplied SQS queue (`sqs.IQueue`), identified abstractly. -/
abbrev QueueId := Nat

/-- The alarm topic held by a `Watchful` instance: either the topic the
constructor creates itself (`new sns.Topic` with id `AlarmTopic`) or a
topic provided through `props.alarmSns`. -/
inductive TopicRef where
  | created
  | provided (t : TopicId)
deriving DecidableEq, Repr

/-- A subscription attached to the alarm topic
(`EmailSubscription` / `SqsSubscription`). -/
inductive Subscription where
  | email (address : String)
  | sqs (queue : QueueId)
deriving DecidableEq, Repr

/-- A quick link of a section widget (`QuickLink` from `./api`). -/
structure QuickLink where
  title : String
  url : String
deriving DecidableEq, Repr

/-- `SectionOptions` from `./api`: optional quick links. -/
structure SectionOptions where
  links : Option (List QuickLink)
deriving DecidableEq, Repr

/-- A dashboard widget (`cloudwatch.IWidget`).  `sectionWidget` mirrors the
`SectionWidget` built by `Watchful.addSection`; `custom` stands for any other
widget passed in by a caller. -/
inductive Widget where
  | sectionWidget (titleLevel : Nat) (titleMarkdown : String)
      (quicklinks : Option (List QuickLink))
  | custom (id : Nat)
deriving DecidableEq, Repr

/-- A side effect on the construct tree performed by the `Watchful`
constructor. -/
inductive Effect where
  | newTopic
  | subscribe (topic : TopicRef) (sub : Subscription)
  | newDashboard (dashboardName : Option String)
  | newOutput (value : String)
deriving DecidableEq, Repr

/-- `WatchfulProps` from `src/watchful.ts`.  Every field is optional in the
source; `none` models an absent field. -/
structure WatchfulProps where
  alarmEmail : Option String
  alarmSqs : Option QueueId
  alarmSns : Option TopicId
  dashboardName : Option String
  alarmActionArns : Option (List String)
  dashboard : Option Bool
deriving DecidableEq, Repr

/-- JavaScript truthiness of an optional string: `undefined` and the empty
string are falsy, every other string is truthy. -/
def strTruthy : Option String → Bool
  | none => false
  | some s => s != ""

/-- An alarm action added to a `cloudwatch.Alarm` by `Watchful.addAlarm`:
either the `SnsAction` on the alarm topic, or the ad-hoc action built from a
configured ARN. -/
inductive AlarmAction where
  | snsAction (topic : TopicRef)
  | arnAction (alarmActionArn : String)
deriving DecidableEq, Repr

/-- A `cloudwatch.Alarm`, reduced to the list of its alarm actions in the
order they were added. -/
structure Alarm where
  actions : List AlarmAction
deriving DecidableEq, Repr

/-- The state of a constructed `Watchful` instance: the private fields
`alarmActionArns`, `alarmTopic` and `dash` (the dashboard modelled as the
list of widgets added to it so far, `none` when no dashboard exists). -/
structure WatchfulState where
  alarmActionArns : List String
  alarmTopic : Option TopicRef
  dash : Option (List Widget)
deriving DecidableEq, Repr

/-- Line 74: `(props.alarmEmail || props.alarmSqs) && !props.alarmSns`. -/
def newTopicNeeded (props : WatchfulProps) : Bool :=
  (strTruthy props.alarmEmail || props.alarmSqs.isSome) && !props.alarmSns.isSome

/-- Lines 74-80: the value of `this.alarmTopic` after the two assignments
(the second, from `props.alarmSns`, overrides the first). -/
def resolvedTopic (props : WatchfulProps) : Option TopicRef :=
  match props.alarmSns with
  | some t => some (TopicRef.provided t)
  | none => if newTopicNeeded props then some TopicRef.created else none

/-- Lines 74-76: the topic-creation effect, when performed. -/
def topicEffects (props : WatchfulProps) : List Effect :=
  if newTopicNeeded props then [Effect.newTopic] else []

/-- Lines 82-86: `if (props.alarmEmail && this.alarmTopic)` subscribe the
email to the alarm topic. -/
def emailEffects (props : WatchfulProps) : List Effect :=
  match props.alarmEmail, resolvedTopic props with
  | some addr, some t =>
      if addr != "" then [Effect.subscribe t (Subscription.email addr)] else []
  | _, _ => []

/-- Lines 88-95: `if (props.alarmSqs && this.alarmTopic)` subscribe the
queue to the alarm topic. -/
def sqsEffects (props : WatchfulProps) : List Effect :=
  match props.alarmSqs, resolvedTopic props with
  | some q, some t => [Effect.subscribe t (Subscription.sqs q)]
  | _, _ => []

/-- Lines 74-95: all alarm-destination wiring effects, in program order. -/
def alarmWiringEffects (props : WatchfulProps) : List Effect :=
  topicEffects props ++ emailEffects props ++ sqsEffects props

/-- Line 97: `props.dashboard === false && props.dashboardName`. -/
def dashboardNameConflict (props : WatchfulProps) : Bool :=
  props.dashboard == some false && strTruthy props.dashboardName

/-- Line 100: `props.dashboard !== false`. -/
def dashboardEnabled (props : WatchfulProps) : Bool :=
  props.dashboard != some false

/-- Line 98: the message of the thrown error. -/
def dashboardNameErrorMsg : String :=
  "Dashboard name is provided but dashboard creation is disabled"

/-- Lines 177-180, `linkForDashboard`: the console URL for the dashboard,
given the stack region and the `ref` of the underlying `CfnDashboard`. -/
def linkForDashboard (region dashboardRef : String) : String :=
  "https://console.aws.amazon.com/cloudwatch/home?region=" ++ region ++
    "#dashboards:name=" ++ dashboardRef

/-- Lines 69-108, the `Watchful` constructor.  `region` is the region of
the stack and `dashboardRef` the `ref` of the created `CfnDashboard`, both
opaque synthesis-time tokens.  Returns the effects performed, in order, and
either the constructed state or the thrown error message; effects performed
before a throw are still reported. -/
def constructWatchful (region dashboardRef : String) (props : WatchfulProps) :
    List Effect × Except String WatchfulState :=
  if dashboardNameConflict props then
    (alarmWiringEffects props, Except.error dashboardNameErrorMsg)
  else if dashboardEnabled props then
    (alarmWiringEffects props ++
        [Effect.newDashboard props.dashboardName,
         Effect.newOutput (linkForDashboard region dashboardRef)],
     Except.ok
       { alarmActionArns := props.alarmActionArns.getD []
         alarmTopic := resolvedTopic props
         dash := some [] })
  else
    (alarmWiringEffects props,
     Except.ok
       { alarmActionArns := props.alarmActionArns.getD []
         alarmTopic := resolvedTopic props
         dash := none })

/-- Lines 110-112, `Watchful.addWidgets`: `this.dash?.addWidgets(...)`. -/
def addWidgets (st : WatchfulState) (widgets : List Widget) : WatchfulState :=
  { st with dash := st.dash.map (fun ws => ws ++ widgets) }

/-- Lines 114-122, `Watchful.addAlarm`: first the `SnsAction` on the alarm
topic when one exists, then one action per configured ARN. -/
def addAlarm (st : WatchfulState) (alarm : Alarm) : Alarm :=
  let alarm1 :=
    match st.alarmTopic with
    | some t => { alarm with actions := alarm.actions ++ [AlarmAction.snsAction t] }
    | none => alarm
  { alarm1 with
      actions := alarm1.actions ++ st.alarmActionArns.map AlarmAction.arnAction }

/-- Lines 124-130, `Watchful.addSection`: delegates to `addWidgets` with a
single `SectionWidget`. -/
def addSection (st : WatchfulState) (title : String) (options : SectionOptions) :
    WatchfulState :=
  addWidgets st [Widget.sectionWidget 1 title options.links]

/-! ### Helper lemmas -/

/-- An optional string is JS-truthy exactly when it holds a non-empty string. -/
theorem strTruthy_iff (o : Option String) :
    strTruthy o = true ↔ ∃ s, o = some s ∧ s ≠ "" := by
  cases o with
  | none => simp [strTruthy]
  | some s => simp [strTruthy]

/-- The only effect in `topicEffects` is the topic creation. -/
theorem mem_topicEffects (props : WatchfulProps) (x : Effect)
    (h : x ∈ topicEffects props) : x = Effect.newTopic := by
  unfold topicEffects at h
  split at h <;> simp_all

/-- Every effect in `emailEffects` is an email subscription. -/
theorem mem_emailEffects (props : WatchfulProps) (x : Effect)
    (h : x ∈ emailEffects props) :
    ∃ t e, x = Effect.subscribe t (Subscription.email e) := by
  unfold emailEffects at h
  split at h
  · split at h
    · simp only [List.mem_singleton] at h
      exact ⟨_, _, h⟩
    · simp at h
  · simp at h

/-- Every effect in `sqsEffects` is a queue subscription. -/
theorem mem_sqsEffects (props : WatchfulProps) (x : Effect)
    (h : x ∈ sqsEffects props) :
    ∃ t q, x = Effect.subscribe t (Subscription.sqs q) := by
  unfold sqsEffects at h
  split at h
  · simp only [List.mem_singleton] at h
    exact ⟨_, _, h⟩
  · simp at h

/-- Every alarm-wiring effect is the topic creation or a subscription. -/
theorem mem_wiring (props : WatchfulProps) (x : Effect)
    (h : x ∈ alarmWiringEffects props) :
    x = Effect.newTopic ∨ ∃ t s, x = Effect.subscribe t s := by
  unfold alarmWiringEffects at h
  rcases List.mem_append.mp h with h1 | h2
  · rcases List.mem_append.mp h1 with ha | hb
    · exact Or.inl (mem_topicEffects props x ha)
    · obtain ⟨t, e, rfl⟩ := mem_emailEffects props x hb
      exact Or.inr ⟨t, _, rfl⟩
  · obtain ⟨t, q, rfl⟩ := mem_sqsEffects props x h2
    exact Or.inr ⟨t, _, rfl⟩

/-- The effects of the constructor: the alarm wiring, then (unless a throw
or `dashboard: false` prevents it) the dashboard and its output. -/
theorem construct_effects (region dref : String) (props : WatchfulProps) :
    (constructWatchful region dref props).1 =
      alarmWiringEffects props ++
        (if !dashboardNameConflict props && dashboardEnabled props then
            [Effect.newDashboard props.dashboardName,
             Effect.newOutput (linkForDashboard region dref)]
          else []) := by
  unfold constructWatchful
  split
  · rename_i h
    simp [h]
  · rename_i h
    split <;> rename_i h2 <;> simp_all

/-- Characterisation of a successfully constructed state. -/
theorem construct_ok_state (region dref : String) (props : WatchfulProps)
    (st : WatchfulState)
    (h : (constructWatchful region dref props).2 = Except.ok st) :
    st = { alarmActionArns := props.alarmActionArns.getD []
           alarmTopic := resolvedTopic props
           dash := if dashboardEnabled props then some [] else none } := by
  unfold constructWatchful at h
  split at h
  · simp_all
  · split at h <;> simp_all

/-- The constructor throws exactly when the dashboard-name conflict holds. -/
theorem construct_error_iff (region dref : String) (props : WatchfulProps) :
    (constructWatchful region dref props).2 = Except.error dashboardNameErrorMsg ↔
      dashboardNameConflict props = true := by
  unfold constructWatchful
  split
  · simp_all
  · split <;> simp_all

/-- The alarm wiring creates the topic exactly `if newTopicNeeded then 1 else 0`
times. -/
theorem count_newTopic_wiring (props : WatchfulProps) :
    (alarmWiringEffects props).count Effect.newTopic =
      if newTopicNeeded props then 1 else 0 := by
  have he : (emailEffects props).count Effect.newTopic = 0 := by
    rw [List.count_eq_zero]
    intro hmem
    obtain ⟨t, e, hx⟩ := mem_emailEffects props _ hmem
    simp at hx
  have hs : (sqsEffects props).count Effect.newTopic = 0 := by
    rw [List.count_eq_zero]
    intro hmem
    obtain ⟨t, q, hx⟩ := mem_sqsEffects props _ hmem
    simp at hx
  unfold alarmWiringEffects
  rw [List.count_append, List.count_append, he, hs]
  unfold topicEffects
  split <;> simp

/-- The whole constructor creates the topic exactly
`if newTopicNeeded then 1 else 0` times. -/
theorem count_newTopic_construct (region dref : String) (props : WatchfulProps) :
    ((constructWatchful region dref props).1).count Effect.newTopic =
      if newTopicNeeded props then 1 else 0 := by
  rw [construct_effects, List.count_append, count_newTopic_wiring]
  split <;> split <;> simp_all [List.count_cons]

/-- When the wiring condition of line 74 holds, the topic-creation effect is
performed. -/
theorem newTopic_mem_construct (region dref : String) (props : WatchfulProps)
    (h : newTopicNeeded props = true) :
    Effect.newTopic ∈ (constructWatchful region dref props).1 := by
  rw [construct_effects]
  apply List.mem_append_left
  unfold alarmWiringEffects
  apply List.mem_append_left
  apply List.mem_append_left
  unfold topicEffects
  rw [if_pos h]
  exact List.mem_singleton_self _

/-- When the wiring condition of line 74 fails, no topic is created. -/
theorem newTopic_not_mem_construct (region dref : String) (props : WatchfulProps)
    (h : newTopicNeeded props = false) :
    Effect.newTopic ∉ (constructWatchful region dref props).1 := by
  have hc := count_newTopic_construct region dref props
  rw [h] at hc
  simp only [Bool.false_eq_true, if_false] at hc
  exact List.count_eq_zero.mp hc

/-- With `alarmSns` provided, the resolved topic is the provided one. -/
theorem resolvedTopic_of_sns (props : WatchfulProps) (t : TopicId)
    (h : props.alarmSns = some t) :
    resolvedTopic props = some (TopicRef.provided t) := by
  unfold resolvedTopic
  rw [h]

/-- Without `alarmSns` and with the wiring condition, the resolved topic is the
newly created one. -/
theorem resolvedTopic_created (props : WatchfulProps)
    (hs : props.alarmSns = none) (hn : newTopicNeeded props = true) :
    resolvedTopic props = some TopicRef.created := by
  unfold resolvedTopic
  rw [hs]
  simp [hn]

/-- A truthy `alarmEmail` gets its subscription effect on the resolved topic. -/
theorem email_sub_mem_construct (region dref : String) (props : WatchfulProps)
    (e : String) (t : TopicRef) (he : props.alarmEmail = some e) (hne : e ≠ "")
    (ht : resolvedTopic props = some t) :
    Effect.subscribe t (Subscription.email e) ∈
      (constructWatchful region dref props).1 := by
  rw [construct_effects]
  apply List.mem_append_left
  unfold alarmWiringEffects
  apply List.mem_append_left
  apply List.mem_append_right
  unfold emailEffects
  rw [he, ht]
  simp [hne]

/-- A provided `alarmSqs` gets its subscription effect on the resolved topic. -/
theorem sqs_sub_mem_construct (region dref : String) (props : WatchfulProps)
    (q : QueueId) (t : TopicRef) (hq : props.alarmSqs = some q)
    (ht : resolvedTopic props = some t) :
    Effect.subscribe t (Subscription.sqs q) ∈
      (constructWatchful region dref props).1 := by
  rw [construct_effects]
  apply List.mem_append_left
  unfold alarmWiringEffects
  apply List.mem_append_right
  unfold sqsEffects
  rw [hq, ht]
  simp

/-- Without an email, no email subscription is attempted. -/
theorem emailEffects_none (props : WatchfulProps)
    (he : props.alarmEmail = none) : emailEffects props = [] := by
  unfold emailEffects
  rw [he]

/-- Without a queue, no queue subscription is attempted. -/
theorem sqsEffects_none (props : WatchfulProps)
    (hq : props.alarmSqs = none) : sqsEffects props = [] := by
  unfold sqsEffects
  rw [hq]

/-- A truthy email with no explicit topic triggers topic creation. -/
theorem newTopicNeeded_of_email (props : WatchfulProps) (e : String)
    (he : props.alarmEmail = some e) (hne : e ≠ "")
    (hs : props.alarmSns = none) : newTopicNeeded props = true := by
  simp [newTopicNeeded, he, hs, strTruthy, hne]

/-- A provided queue with no explicit topic triggers topic creation. -/
theorem newTopicNeeded_of_sqs (props : WatchfulProps) (q : QueueId)
    (hq : props.alarmSqs = some q) (hs : props.alarmSns = none) :
    newTopicNeeded props = true := by
  simp [newTopicNeeded, hq, hs]

/-- An explicit topic suppresses topic creation. -/
theorem newTopicNeeded_false_of_sns (props : WatchfulProps) (t : TopicId)
    (h : props.alarmSns = some t) : newTopicNeeded props = false := by
  simp [newTopicNeeded, h]

/-! ### Claim theorems -/

/-- Claim C1: constructing `Watchful` raises the configuration error exactly
when `dashboard: false` is combined with a non-empty `dashboardName`; no other
props raise this (or any) construction error. -/
theorem claim_C1_dashboard_name_conflict_error (region dref : String)
    (props : WatchfulProps) :
    ((constructWatchful region dref props).2 =
        Except.error dashboardNameErrorMsg ↔
      props.dashboard = some false ∧
        ∃ s, props.dashboardName = some s ∧ s ≠ "") ∧
    ∀ e, (constructWatchful region dref props).2 = Except.error e →
      e = dashboardNameErrorMsg := by
  constructor
  · rw [construct_error_iff]
    unfold dashboardNameConflict
    rw [Bool.and_eq_true, beq_iff_eq, strTruthy_iff]
  · intro e he
    unfold constructWatchful at he
    split at he
    · simp_all
    · split at he <;> simp_all

/-- Witness for claim C1 at a concrete input. -/
theorem claim_C1_dashboard_name_conflict_error_witness :
    (constructWatchful "us-east-1" "WatchfulDashboard"
        ⟨none, none, none, some "MyDashboard", none, some false⟩).2 =
      Except.error dashboardNameErrorMsg :=
  (claim_C1_dashboard_name_conflict_error "us-east-1" "WatchfulDashboard"
    ⟨none, none, none, some "MyDashboard", none, some false⟩).1.mpr
    ⟨rfl, "MyDashboard", rfl, by decide⟩

/-- Claim C4: `addAlarm` appends, to the existing actions of the alarm, one
SNS notification action when an alarm topic exists, followed by one action per
configured ARN; with no topic and no configured ARNs the alarm is unchanged. -/
theorem claim_C4_addAlarm_action_composition (st : WatchfulState) (a : Alarm) :
    ((addAlarm st a).actions =
      a.actions ++ (st.alarmTopic.map AlarmAction.snsAction).toList ++
        st.alarmActionArns.map AlarmAction.arnAction) ∧
    ((addAlarm st a).actions.length =
      a.actions.length + (if st.alarmTopic.isSome then 1 else 0) +
        st.alarmActionArns.length) ∧
    (st.alarmTopic = none → st.alarmActionArns = [] → addAlarm st a = a) := by
  refine ⟨?_, ?_, ?_⟩
  · unfold addAlarm
    cases h : st.alarmTopic <;> simp
  · unfold addAlarm
    cases h : st.alarmTopic <;> simp
    omega
  · intro h1 h2
    unfold addAlarm
    rw [h1, h2]
    simp

/-- Witness for claim C4 at a concrete input. -/
theorem claim_C4_addAlarm_action_composition_witness :
    (addAlarm ⟨["arnA"], some TopicRef.created, none⟩ ⟨[]⟩).actions =
      [AlarmAction.snsAction TopicRef.created, AlarmAction.arnAction "arnA"] := by
  have h :=
    (claim_C4_addAlarm_action_composition
      ⟨["arnA"], some TopicRef.created, none⟩ ⟨[]⟩).1
  simpa using h

/-- Claim C8: with no alarm destination options at all, no topic is created,
no subscription is made, and the alarm-topic field stays `none`. -/
theorem claim_C8_no_destination_no_channel (region dref : String)
    (props : WatchfulProps) (he : props.alarmEmail = none)
    (hq : props.alarmSqs = none) (hs : props.alarmSns = none) :
    Effect.newTopic ∉ (constructWatchful region dref props).1 ∧
    (∀ t s, Effect.subscribe t s ∉ (constructWatchful region dref props).1) ∧
    (∀ st, (constructWatchful region dref props).2 = Except.ok st →
      st.alarmTopic = none) := by
  have hn : newTopicNeeded props = false := by
    simp [newTopicNeeded, he, hq, hs, strTruthy]
  refine ⟨newTopic_not_mem_construct region dref props hn, ?_, ?_⟩
  · intro t s hmem
    rw [construct_effects] at hmem
    rcases List.mem_append.mp hmem with h1 | h2
    · unfold alarmWiringEffects at h1
      rw [emailEffects_none props he, sqsEffects_none props hq] at h1
      simp only [List.append_nil] at h1
      exact absurd (mem_topicEffects props _ h1) (by simp)
    · split at h2 <;> simp_all
  · intro st hok
    rw [construct_ok_state region dref props st hok]
    unfold resolvedTopic
    rw [hs]
    simp [hn]

/-- Witness for claim C8 at a concrete input. -/
theorem claim_C8_no_destination_no_channel_witness :
    Effect.newTopic ∉
      (constructWatchful "us-east-1" "WatchfulDashboard"
        ⟨none, none, none, none, none, none⟩).1 :=
  (claim_C8_no_destination_no_channel "us-east-1" "WatchfulDashboard"
    ⟨none, none, none, none, none, none⟩ rfl rfl rfl).1

/-- Claim C9: on an instance constructed with dashboards disabled,
`addWidgets` and `addSection` leave the state unchanged. -/
theorem claim_C9_addWidgets_noop_when_disabled (region dref : String)
    (props : WatchfulProps) (st : WatchfulState)
    (hd : props.dashboard = some false)
    (hok : (constructWatchful region dref props).2 = Except.ok st) :
    (∀ widgets, addWidgets st widgets = st) ∧
    (∀ title options, addSection st title options = st) := by
  have hdash : st.dash = none := by
    rw [construct_ok_state region dref props st hok]
    simp [dashboardEnabled, hd]
  have hw : ∀ widgets, addWidgets st widgets = st := by
    intro widgets
    obtain ⟨a, t, d⟩ := st
    simp_all [addWidgets]
  exact ⟨hw, fun title options => hw _⟩

/-- Witness for claim C9 at a concrete input. -/
theorem claim_C9_addWidgets_noop_when_disabled_witness :
    addWidgets ⟨[], none, none⟩ [Widget.custom 0] = ⟨[], none, none⟩ :=
  (claim_C9_addWidgets_noop_when_disabled "us-east-1" "WatchfulDashboard"
    ⟨none, none, none, none, none, some false⟩ ⟨[], none, none⟩ rfl rfl).1
    [Widget.custom 0]

/-- The dashboard-creation effect occurs exactly when no name conflict throws
and dashboards are enabled, and then carries the configured name. -/
theorem newDashboard_mem_construct_iff (region dref : String)
    (props : WatchfulProps) (n : Option String) :
    Effect.newDashboard n ∈ (constructWatchful region dref props).1 ↔
      (dashboardNameConflict props = false ∧ dashboardEnabled props = true ∧
        n = props.dashboardName) := by
  rw [construct_effects, List.mem_append]
  constructor
  · rintro (h1 | h2)
    · rcases mem_wiring props _ h1 with hx | ⟨t, s, hx⟩ <;> simp at hx
    · by_cases hc : dashboardNameConflict props <;>
        by_cases he : dashboardEnabled props <;> simp_all
  · rintro ⟨hc, he, rfl⟩
    right
    simp [hc, he]

/-- The deployment-output effect occurs exactly when no name conflict throws
and dashboards are enabled, and then carries the dashboard console URL. -/
theorem newOutput_mem_construct_iff (region dref : String)
    (props : WatchfulProps) (v : String) :
    Effect.newOutput v ∈ (constructWatchful region dref props).1 ↔
      (dashboardNameConflict props = false ∧ dashboardEnabled props = true ∧
        v = linkForDashboard region dref) := by
  rw [construct_effects, List.mem_append]
  constructor
  · rintro (h1 | h2)
    · rcases mem_wiring props _ h1 with hx | ⟨t, s, hx⟩ <;> simp at hx
    · by_cases hc : dashboardNameConflict props <;>
        by_cases he : dashboardEnabled props <;> simp_all
  · rintro ⟨hc, he, rfl⟩
    right
    simp [hc, he]

/-- Claim C2: with `alarmSns` provided, no new topic is created, the provided
topic becomes the alarm destination, and any truthy `alarmEmail` / provided
`alarmSqs` subscriptions attach to the provided topic. -/
theorem claim_C2_provided_sns_topic_used (region dref : String)
    (props : WatchfulProps) (t : TopicId) (h : props.alarmSns = some t) :
    Effect.newTopic ∉ (constructWatchful region dref props).1 ∧
    (∀ st, (constructWatchful region dref props).2 = Except.ok st →
      st.alarmTopic = some (TopicRef.provided t)) ∧
    (∀ e, props.alarmEmail = some e → e ≠ "" →
      Effect.subscribe (TopicRef.provided t) (Subscription.email e) ∈
        (constructWatchful region dref props).1) ∧
    (∀ q, props.alarmSqs = some q →
      Effect.subscribe (TopicRef.provided t) (Subscription.sqs q) ∈
        (constructWatchful region dref props).1) := by
  have ht := resolvedTopic_of_sns props t h
  refine ⟨newTopic_not_mem_construct region dref props
      (newTopicNeeded_false_of_sns props t h), ?_, ?_, ?_⟩
  · intro st hok
    rw [construct_ok_state region dref props st hok]
    simpa using ht
  · intro e he hne
    exact email_sub_mem_construct region dref props e _ he hne ht
  · intro q hq
    exact sqs_sub_mem_construct region dref props q _ hq ht

/-- Witness for claim C2 at a concrete input. -/
theorem claim_C2_provided_sns_topic_used_witness :
    Effect.subscribe (TopicRef.provided 7) (Subscription.email "ops") ∈
      (constructWatchful "us-east-1" "WatchfulDashboard"
        ⟨some "ops", some 5, some 7, none, none, none⟩).1 :=
  (claim_C2_provided_sns_topic_used "us-east-1" "WatchfulDashboard"
    ⟨some "ops", some 5, some 7, none, none, none⟩ 7 rfl).2.2.1 "ops" rfl
    (by decide)

/-- Claim C3: at most one alarm channel is ever created; with both a truthy
email and a queue and no explicit topic, exactly one channel is created and
both destinations are subscribed to it. -/
theorem claim_C3_single_alarm_channel (region dref : String)
    (props : WatchfulProps) (e : String) (q : QueueId)
    (he : props.alarmEmail = some e) (hne : e ≠ "")
    (hq : props.alarmSqs = some q) (hs : props.alarmSns = none) :
    (∀ props' : WatchfulProps,
      ((constructWatchful region dref props').1).count Effect.newTopic ≤ 1) ∧
    ((constructWatchful region dref props).1).count Effect.newTopic = 1 ∧
    Effect.subscribe TopicRef.created (Subscription.email e) ∈
      (constructWatchful region dref props).1 ∧
    Effect.subscribe TopicRef.created (Subscription.sqs q) ∈
      (constructWatchful region dref props).1 := by
  have hn : newTopicNeeded props = true :=
    newTopicNeeded_of_email props e he hne hs
  have ht : resolvedTopic props = some TopicRef.created :=
    resolvedTopic_created props hs hn
  refine ⟨?_, ?_, ?_, ?_⟩
  · intro props'
    rw [count_newTopic_construct]
    split <;> simp
  · rw [count_newTopic_construct, if_pos hn]
  · exact email_sub_mem_construct region dref props e _ he hne ht
  · exact sqs_sub_mem_construct region dref props q _ hq ht

/-- Witness for claim C3 at a concrete input. -/
theorem claim_C3_single_alarm_channel_witness :
    ((constructWatchful "us-east-1" "WatchfulDashboard"
        ⟨some "ops", some 5, none, none, none, none⟩).1).count
      Effect.newTopic = 1 :=
  (claim_C3_single_alarm_channel "us-east-1" "WatchfulDashboard"
    ⟨some "ops", some 5, none, none, none, none⟩ "ops" 5 rfl (by decide) rfl
    rfl).2.1

/-- Claim C5: with `dashboard` omitted or `true`, a dashboard and its console
URL output are created; with `dashboard: false` and no `dashboardName`, no
dashboard and no output are created. -/
theorem claim_C5_dashboard_creation (region dref : String)
    (props : WatchfulProps) :
    ((props.dashboard = none ∨ props.dashboard = some true) →
      Effect.newDashboard props.dashboardName ∈
        (constructWatchful region dref props).1 ∧
      Effect.newOutput (linkForDashboard region dref) ∈
        (constructWatchful region dref props).1 ∧
      ∀ st, (constructWatchful region dref props).2 = Except.ok st →
        st.dash = some []) ∧
    (props.dashboard = some false → props.dashboardName = none →
      (∀ n, Effect.newDashboard n ∉ (constructWatchful region dref props).1) ∧
      (∀ v, Effect.newOutput v ∉ (constructWatchful region dref props).1) ∧
      ∀ st, (constructWatchful region dref props).2 = Except.ok st →
        st.dash = none) := by
  constructor
  · intro hd
    have hc : dashboardNameConflict props = false := by
      rcases hd with h | h <;> simp [dashboardNameConflict, h]
    have he : dashboardEnabled props = true := by
      rcases hd with h | h <;> simp [dashboardEnabled, h]
    refine ⟨?_, ?_, ?_⟩
    · exact (newDashboard_mem_construct_iff region dref props _).mpr
        ⟨hc, he, rfl⟩
    · exact (newOutput_mem_construct_iff region dref props _).mpr
        ⟨hc, he, rfl⟩
    · intro st hok
      rw [construct_ok_state region dref props st hok]
      simp [he]
  · intro hd hn
    have he : dashboardEnabled props = false := by
      simp [dashboardEnabled, hd]
    refine ⟨?_, ?_, ?_⟩
    · intro n hmem
      have := (newDashboard_mem_construct_iff region dref props n).mp hmem
      simp_all
    · intro v hmem
      have := (newOutput_mem_construct_iff region dref props v).mp hmem
      simp_all
    · intro st hok
      rw [construct_ok_state region dref props st hok]
      simp [he]

/-- Witness for claim C5 at a concrete input. -/
theorem claim_C5_dashboard_creation_witness :
    Effect.newDashboard none ∈
      (constructWatchful "us-east-1" "WatchfulDashboard"
        ⟨none, none, none, none, none, none⟩).1 :=
  ((claim_C5_dashboard_creation "us-east-1" "WatchfulDashboard"
    ⟨none, none, none, none, none, none⟩).1 (Or.inl rfl)).1

/-- Claim C6: whenever dashboard creation is enabled, a deployment output is
emitted and every emitted output value is exactly the console URL built from
the stack region and the dashboard identifier. -/
theorem claim_C6_dashboard_output_url (region dref : String)
    (props : WatchfulProps) (h : props.dashboard ≠ some false) :
    Effect.newOutput (linkForDashboard region dref) ∈
      (constructWatchful region dref props).1 ∧
    (∀ v, Effect.newOutput v ∈ (constructWatchful region dref props).1 →
      v = "https://console.aws.amazon.com/cloudwatch/home?region=" ++ region ++
            "#dashboards:name=" ++ dref) := by
  have hb : (props.dashboard == some false) = false := by
    simpa using h
  have hc : dashboardNameConflict props = false := by
    simp [dashboardNameConflict, hb]
  have he : dashboardEnabled props = true := by
    simpa [dashboardEnabled] using h
  constructor
  · exact (newOutput_mem_construct_iff region dref props _).mpr ⟨hc, he, rfl⟩
  · intro v hv
    obtain ⟨-, -, hveq⟩ := (newOutput_mem_construct_iff region dref props v).mp hv
    rw [hveq]
    rfl

/-- Witness for claim C6 at a concrete input. -/
theorem claim_C6_dashboard_output_url_witness :
    Effect.newOutput (linkForDashboard "eu-west-1" "DashRef") ∈
      (constructWatchful "eu-west-1" "DashRef"
        ⟨none, none, none, none, none, some true⟩).1 :=
  (claim_C6_dashboard_output_url "eu-west-1" "DashRef"
    ⟨none, none, none, none, none, some true⟩ (by decide)).1

/-- Claim C7: with a single destination option (a truthy email only, or a
queue only) and no explicit topic, exactly one channel is created and the
destination is subscribed to it. -/
theorem claim_C7_single_destination_channel (region dref : String)
    (props : WatchfulProps) (hs : props.alarmSns = none) :
    (∀ e, props.alarmEmail = some e → e ≠ "" → props.alarmSqs = none →
      ((constructWatchful region dref props).1).count Effect.newTopic = 1 ∧
      Effect.subscribe TopicRef.created (Subscription.email e) ∈
        (constructWatchful region dref props).1) ∧
    (∀ q, props.alarmSqs = some q → props.alarmEmail = none →
      ((constructWatchful region dref props).1).count Effect.newTopic = 1 ∧
      Effect.subscribe TopicRef.created (Subscription.sqs q) ∈
        (constructWatchful region dref props).1) := by
  constructor
  · intro e he hne _hq
    have hn := newTopicNeeded_of_email props e he hne hs
    have ht := resolvedTopic_created props hs hn
    exact ⟨by rw [count_newTopic_construct, if_pos hn],
      email_sub_mem_construct region dref props e _ he hne ht⟩
  · intro q hq _he
    have hn := newTopicNeeded_of_sqs props q hq hs
    have ht := resolvedTopic_created props hs hn
    exact ⟨by rw [count_newTopic_construct, if_pos hn],
      sqs_sub_mem_construct region dref props q _ hq ht⟩

/-- Witness for claim C7 at a concrete input. -/
theorem claim_C7_single_destination_channel_witness :
    Effect.subscribe TopicRef.created (Subscription.email "ops") ∈
      (constructWatchful "us-east-1" "WatchfulDashboard"
        ⟨some "ops", none, none, none, none, none⟩).1 :=
  ((claim_C7_single_destination_channel "us-east-1" "WatchfulDashboard"
    ⟨some "ops", none, none, none, none, none⟩ rfl).1 "ops" rfl (by decide)
    rfl).2

/-- Claim C10: the constructor is not atomic: with `dashboard: false`, a
non-empty `dashboardName`, and alarm destinations requested, the alarm topic
and its subscriptions are created (the construct tree is mutated) even though
the configuration error is raised. -/
theorem claim_C10_alarm_wiring_precedes_error (region dref : String)
    (props : WatchfulProps) (s : String) (hd : props.dashboard = some false)
    (hn : props.dashboardName = some s) (hs : s ≠ "") :
    (constructWatchful region dref props).2 =
      Except.error dashboardNameErrorMsg ∧
    (∀ e, props.alarmEmail = some e → e ≠ "" → props.alarmSns = none →
      Effect.newTopic ∈ (constructWatchful region dref props).1 ∧
      Effect.subscribe TopicRef.created (Subscription.email e) ∈
        (constructWatchful region dref props).1) ∧
    (∀ q, props.alarmSqs = some q → props.alarmSns = none →
      Effect.newTopic ∈ (constructWatchful region dref props).1 ∧
      Effect.subscribe TopicRef.created (Subscription.sqs q) ∈
        (constructWatchful region dref props).1) := by
  refine ⟨?_, ?_, ?_⟩
  · rw [construct_error_iff]
    simp [dashboardNameConflict, hd, hn, strTruthy, hs]
  · intro e he hne hsns
    have hnt := newTopicNeeded_of_email props e he hne hsns
    exact ⟨newTopic_mem_construct region dref props hnt,
      email_sub_mem_construct region dref props e _ he hne
        (resolvedTopic_created props hsns hnt)⟩
  · intro q hq hsns
    have hnt := newTopicNeeded_of_sqs props q hq hsns
    exact ⟨newTopic_mem_construct region dref props hnt,
      sqs_sub_mem_construct region dref props q _ hq
        (resolvedTopic_created props hsns hnt)⟩

/-- Witness for claim C10 at a concrete input. -/
theorem claim_C10_alarm_wiring_precedes_error_witness :
    (constructWatchful "us-east-1" "WatchfulDashboard"
        ⟨some "ops", none, none, some "MyDashboard", none, some false⟩).2 =
      Except.error dashboardNameErrorMsg ∧
    Effect.newTopic ∈
      (constructWatchful "us-east-1" "WatchfulDashboard"
        ⟨some "ops", none, none, some "MyDashboard", none, some false⟩).1 :=
  ⟨(claim_C10_alarm_wiring_precedes_error "us-east-1" "WatchfulDashboard"
      ⟨some "ops", none, none, some "MyDashboard", none, some false⟩
      "MyDashboard" rfl rfl (by decide)).1,
   ((claim_C10_alarm_wiring_precedes_error "us-east-1" "WatchfulDashboard"
      ⟨some "ops", none, none, some "MyDashboard", none, some false⟩
      "MyDashboard" rfl rfl (by decide)).2.1 "ops" rfl (by decide) rfl).1⟩

end CdkWatchful
